import Mathlib

/-
Verification development for the retrieval core of the cognitive-query-pro
repository (src/core/vector_store_handler.py, src/config/settings.py,
src/agents/summarizer_agent.py).

The embedding is shallow: Python module attributes become an association list,
attribute access becomes a lookup returning an `Except` value (a missing
attribute is an uncaught `AttributeError`), the on-disk persistence directory
becomes an association list from paths to serialized artifacts, and the
mutable `VectorStoreHandler` object becomes explicit state passing.

External LangChain collaborators (the child splitter, the parent-document
retriever, the in-memory document store) are not part of the repository
source; following the specification, each of those is modelled from the
spec's component design (sections 4.1 - 4.3) and is marked as such in its
doc comment.
-/

set_option autoImplicit false

namespace CQP

/-- A value of an attribute of the `config.settings` Python module. -/
inductive SettingsVal where
  | str (s : String)
  | nat (n : Nat)
  | pyNone
  deriving Repr, DecidableEq

/-- The Python exceptions the embedded code can raise. -/
inductive PyErr where
  /-- `AttributeError` raised on access to a missing module attribute. -/
  | attributeError (attr : String)
  /-- A failed deserialization (corrupt pickle bytes or FAISS artifact). -/
  | deserializationError
  /-- A file expected on disk is absent. -/
  | fileNotFound
  /-- The embedding provider failed on some text. -/
  | embeddingError
  /-- Any type confusion (an attribute bound to a value of the wrong shape). -/
  | typeError
  deriving Repr, DecidableEq

/-- The module attributes defined by `src/config/settings.py` (lines 9-22).
The two secret keys are read via `st.secrets.get`, which yields `None` when
the secret is not configured; their presence as module attributes does not
depend on that value. -/
def settingsAttrs : List (String × SettingsVal) :=
  [("OPENAI_API_KEY", .pyNone),
   ("GOOGLE_API_KEY", .pyNone),
   ("ROUTER_MODEL", .str "gpt-3.5-turbo"),
   ("REPORT_MODEL", .str "gpt-3.5-turbo"),
   ("QNA_MODEL", .str "gemini-1.5-flash"),
   ("FAISS_PERSIST_DIRECTORY", .str "faiss_index_store"),
   ("CHUNK_SIZE", .nat 1000),
   ("CHUNK_OVERLAP", .nat 150)]

/-- Python attribute lookup on a module modelled as an association list:
`settings.<name>` raises `AttributeError` when the module does not bind
the name. -/
def getattrV (attrs : List (String × SettingsVal)) (name : String) :
    Except PyErr SettingsVal :=
  match attrs with
  | [] => .error (.attributeError name)
  | (k, v) :: rest => if name = k then .ok v else getattrV rest name

/-- Attribute access in a string position (a path). -/
def getattrStr (attrs : List (String × SettingsVal)) (name : String) :
    Except PyErr String :=
  match getattrV attrs name with
  | .error e => .error e
  | .ok (.str s) => .ok s
  | .ok _ => .error .typeError

/-- Attribute access in an integer position (a chunk size or overlap). -/
def getattrNat (attrs : List (String × SettingsVal)) (name : String) :
    Except PyErr Nat :=
  match getattrV attrs name with
  | .error e => .error e
  | .ok (.nat n) => .ok n
  | .ok _ => .error .typeError

/-- Messages the handler surfaces to the user interface (st.error /
st.success / st.warning / st.info calls). -/
inductive UIEvent where
  | errorMsg (s : String)
  | successMsg (s : String)
  | warnMsg (s : String)
  deriving Repr, DecidableEq

/-- A full ingested document: `id` (the docstore key), `content`
(full text), and the `source` metadata entry. -/
structure Document where
  id : String
  content : String
  source : String
  deriving Repr, DecidableEq

/-- A child fragment staged for indexing: its text and the id of the parent
document it was sliced from. -/
structure Fragment where
  text : String
  parentId : String
  deriving Repr, DecidableEq

/-- A fragment together with the embedding vector computed for it. -/
structure EmbFragment where
  frag : Fragment
  vec : List Int
  deriving Repr, DecidableEq

/-- The fragment index: embedded fragments in insertion order. -/
abbrev VectorStore := List EmbFragment

/-- The parent document store: an id-keyed association list. -/
abbrev DocStore := List (String × Document)

/-- Lookup in the document store. -/
def dsGet (ds : DocStore) (key : String) : Option Document :=
  match ds with
  | [] => none
  | (k, v) :: rest => if key = k then some v else dsGet rest key

/-- Modelled from the spec: the Document Store `put` of section 4.2 is an
unconditional upsert keyed by the document id (the LangChain in-memory store
used by the source is not part of the repository). -/
def dsPut (ds : DocStore) (key : String) (d : Document) : DocStore :=
  match ds with
  | [] => [(key, d)]
  | (k, v) :: rest => if key = k then (key, d) :: rest else (k, v) :: dsPut rest key d

/-- The retriever object: the fragment index, the parent document store, and
the child-splitter parameters it was constructed with. -/
structure Retriever where
  size : Nat
  overlap : Nat
  vectorstore : VectorStore
  docstore : DocStore
  deriving Repr, DecidableEq

/-- The `VectorStoreHandler` state: `self.retriever` is `None` until a
successful ingest or load (the `self.vectorstore` / `self.docstore` fields of
the source alias the retriever components and are folded into it here). -/
structure Handler where
  retriever : Option Retriever
  deriving Repr, DecidableEq

/-- Serialized bytes of one persisted artifact. -/
inductive ArtifactBytes where
  /-- A FAISS `save_local` dump of a fragment index. -/
  | faissDump (vs : VectorStore)
  /-- A `pickle.dump` of a document store. -/
  | pickleDump (ds : DocStore)
  /-- Unreadable garbage bytes. -/
  | garbage (n : Nat)
  deriving Repr, DecidableEq

/-- The persisted state: an association list from paths to artifact bytes. -/
abbrev FS := List (String × ArtifactBytes)

/-- `os.path.exists`. -/
def pathExists (fs : FS) (p : String) : Bool :=
  match fs with
  | [] => false
  | (k, _) :: rest => if p = k then true else pathExists rest p

/-- Read the bytes at a path. -/
def readFS (fs : FS) (p : String) : Option ArtifactBytes :=
  match fs with
  | [] => none
  | (k, v) :: rest => if p = k then some v else readFS rest p

/-- Write bytes at a path, replacing what was there. -/
def writeFS (fs : FS) (p : String) (b : ArtifactBytes) : FS :=
  match fs with
  | [] => [(p, b)]
  | (k, v) :: rest => if p = k then (p, b) :: rest else (k, v) :: writeFS rest p b

/-- `LangChainFAISS.load_local`: succeeds only on a FAISS dump. -/
def faissLoadLocal (fs : FS) (p : String) : Except PyErr VectorStore :=
  match readFS fs p with
  | some (.faissDump vs) => .ok vs
  | some _ => .error .deserializationError
  | none => .error .fileNotFound

/-- `pickle.load` of the document store artifact: succeeds only on a pickle
dump of a document store. -/
def pickleLoadDS (fs : FS) (p : String) : Except PyErr DocStore :=
  match readFS fs p with
  | some (.pickleDump ds) => .ok ds
  | some _ => .error .deserializationError
  | none => .error .fileNotFound

/-- The chunk overlap the external splitter defaults to when the load path
rebuilds it without an explicit overlap argument. -/
def defaultSplitterOverlap : Nat := 200

/-- The body of the `try` block of `_load_retriever_from_disk`
(src/core/vector_store_handler.py lines 106-125): load the FAISS index, load
the pickled docstore, then rebuild the child splitter from
`settings.CHILD_CHUNK_SIZE` and recreate the retriever. Any error escaping
this block is caught by the surrounding `except`. -/
def loadArtifacts (attrs : List (String × SettingsVal)) (fs : FS)
    (vsp dsp : String) : Except PyErr Retriever := do
  let vs ← faissLoadLocal fs vsp
  let ds ← pickleLoadDS fs dsp
  let sz ← getattrNat attrs "CHILD_CHUNK_SIZE"
  .ok { size := sz, overlap := defaultSplitterOverlap,
        vectorstore := vs, docstore := ds }

/-- The message `_load_retriever_from_disk` reports when the artifacts exist
but loading them fails (line 127). -/
def corruptLoadMsg : String :=
  "Failed to load existing knowledge base. It might be corrupted. Please re-process documents."

/-- The message reported on a successful load (line 124). -/
def loadedMsg : String := "Knowledge base loaded from disk!"

/-- `VectorStoreHandler._load_retriever_from_disk`
(src/core/vector_store_handler.py lines 96-131). The two path reads at lines
101-102 happen before the existence check and outside the `try` block, so a
failure there is an uncaught exception (the `.error` result). When both
artifacts exist, the `try` body either yields a loaded retriever with a
success message, or its exception is caught and the handler is left with no
retriever and a corruption error message. When either artifact is absent the
handler is left fresh with no message. -/
def loadRetrieverFromDisk (attrs : List (String × SettingsVal)) (fs : FS) :
    Except PyErr (Handler × List UIEvent) := do
  let vsp ← getattrStr attrs "VECTOR_STORE_PATH"
  let dsp ← getattrStr attrs "DOC_STORE_PATH"
  if pathExists fs vsp && pathExists fs dsp then
    match loadArtifacts attrs fs vsp dsp with
    | .ok r => .ok ({ retriever := some r }, [.successMsg loadedMsg])
    | .error _ => .ok ({ retriever := none }, [.errorMsg corruptLoadMsg])
  else
    .ok ({ retriever := none }, [])

/-- `VectorStoreHandler._save_retriever_to_disk`
(src/core/vector_store_handler.py lines 134-161). With no retriever the
function returns at once (lines 138-140), before any settings access or disk
write, so the filesystem is returned unchanged. Otherwise the two path reads
at lines 142-143 are outside the `try` block and a failure there is an
uncaught exception; the writes themselves are modelled as always succeeding
(the `except` at line 159 only reports). -/
def saveRetrieverToDisk (attrs : List (String × SettingsVal)) (fs : FS)
    (h : Handler) : Except PyErr (FS × List UIEvent) :=
  match h.retriever with
  | none => .ok (fs, [])
  | some r => do
    let vsp ← getattrStr attrs "VECTOR_STORE_PATH"
    let dsp ← getattrStr attrs "DOC_STORE_PATH"
    .ok (writeFS (writeFS fs vsp (.faissDump r.vectorstore)) dsp
          (.pickleDump r.docstore), [])

/-- Modelled from the spec: fragment generation (section 4.3 step 1) slides a
window of `size` characters over the content, advancing by a positive step
each time and truncating the final window to the remaining content. The
actual child splitter is LangChain code outside the repository; the spec
describes it as this character window. The step is `step1 + 1` so that the
recursion always advances. -/
def slideChunks (size step1 : Nat) (l : List Char) : List (List Char) :=
  if _h : l.length ≤ size then [l]
  else l.take size :: slideChunks size step1 (l.drop (step1 + 1))
termination_by l.length
decreasing_by
  simp only [List.length_drop]
  omega

/-- Modelled from the spec: the fragments staged for one document — the
sliding windows of its content, each tagged with the document id as
`parent_id` (section 4.3 step 1). -/
def stagedOfDoc (size overlap : Nat) (d : Document) : List Fragment :=
  (slideChunks size (size - overlap - 1) d.content.data).map
    (fun w => { text := String.mk w, parentId := d.id })

/-- All fragments staged for an ingest call, in document order. -/
def stageAll (size overlap : Nat) (docs : List Document) : List Fragment :=
  (docs.map (stagedOfDoc size overlap)).flatten

/-- Embed a staged batch of fragments with the external embedding provider
`embed`; the batch fails as a whole as soon as one fragment fails. -/
def embedBatch (embed : String → Except PyErr (List Int)) :
    List Fragment → Except PyErr (List EmbFragment)
  | [] => .ok []
  | f :: rest => do
    let v ← embed f.text
    let out ← embedBatch embed rest
    .ok ({ frag := f, vec := v } :: out)

/-- Modelled from the spec: the parent-document `add` of section 4.3 (steps
1-3 of `ingest`, with the recommended staging of section 4.3 step 5): stage
all fragments, embed them as one batch, and only on success append them to
the fragment index and upsert each document into the document store keyed by
its id. On a batch failure neither store changes. -/
def addDocuments (embed : String → Except PyErr (List Int)) (r : Retriever)
    (docs : List Document) : Except PyErr Retriever :=
  match embedBatch embed (stageAll r.size r.overlap docs) with
  | .error e => .error e
  | .ok embs =>
    .ok { r with
          vectorstore := r.vectorstore ++ embs,
          docstore := docs.foldl (fun ds d => dsPut ds d.id d) r.docstore }

/-- Keep the first occurrence of every element, dropping later duplicates
(the order the parent ids of matched fragments are collected in). -/
def firstOccDedup : List String → List String
  | [] => []
  | x :: xs => x :: firstOccDedup (xs.filter (fun y => y != x))
termination_by l => l.length
decreasing_by
  simp only [List.length_cons]
  exact Nat.lt_succ_of_le (List.length_filter_le _ xs)

/-- Modelled from the spec: `retrieve` steps 2-4 of section 4.3 (the
retrieval side lives in the external retriever class): collect the distinct
parent ids of the matched fragments in order of first occurrence, fetch each
from the document store, and silently skip ids that do not resolve. -/
def retrieveDocs (ds : DocStore) (matched : List Fragment) : List Document :=
  (firstOccDedup (matched.map Fragment.parentId)).filterMap (dsGet ds)

/-- The message `get_retriever` reports when no retriever exists (line 223). -/
def emptyKBMsg : String :=
  "The knowledge base is empty. Please process documents first."

/-- `VectorStoreHandler.get_retriever` (src/core/vector_store_handler.py
lines 218-227): with no retriever it reports an error and returns `None`;
otherwise it returns the retriever with no error. -/
def getRetriever (h : Handler) : Option Retriever × List UIEvent :=
  match h.retriever with
  | none => (none, [.errorMsg emptyKBMsg])
  | some r => (some r, [])

/-- The retriever `build_index` works on: the existing one, or a freshly
created empty one whose splitter parameters are read from
`settings.CHILD_CHUNK_SIZE` and `settings.CHILD_CHUNK_OVERLAP`
(src/core/vector_store_handler.py lines 176-195). A failure of those reads
is caught by the `except` at line 197. -/
def currentOrNewRetriever (attrs : List (String × SettingsVal))
    (h : Handler) : Except PyErr Retriever :=
  match h.retriever with
  | some r => .ok r
  | none => do
    let sz ← getattrNat attrs "CHILD_CHUNK_SIZE"
    let ov ← getattrNat attrs "CHILD_CHUNK_OVERLAP"
    .ok { size := sz, overlap := ov, vectorstore := [], docstore := [] }

/-- The message reported when the retriever structure cannot be created
(line 198). -/
def createFailMsg : String := "Failed to create the retriever structure"

/-- The message reported when adding or saving raises (line 213). -/
def indexingFailMsg : String :=
  "A critical error occurred during document indexing"

/-- The message reported on a fully successful ingest (line 210). -/
def indexedMsg : String :=
  "Advanced context-aware index has been successfully built and saved!"

/-- The warning for an empty document list (line 169). -/
def noDocsMsg : String := "No documents provided to build the index."

/-- `VectorStoreHandler.build_index` (src/core/vector_store_handler.py lines
164-215): an empty list returns at once with a warning; otherwise the
retriever is found or created (a creation failure is caught and reported,
leaving the handler unchanged); then `add_documents` and the disk save run
inside one `try` whose exception is caught and reported — a failed add
leaves the pre-add retriever in place, a failed save keeps the in-memory
addition but leaves the disk unchanged. -/
def buildIndex (attrs : List (String × SettingsVal))
    (embed : String → Except PyErr (List Int)) (h : Handler)
    (docs : List Document) (fs : FS) : Handler × FS × List UIEvent :=
  if docs.isEmpty then (h, fs, [.warnMsg noDocsMsg])
  else
    match currentOrNewRetriever attrs h with
    | .error _ => (h, fs, [.errorMsg createFailMsg])
    | .ok r =>
      match addDocuments embed r docs with
      | .error _ => ({ retriever := some r }, fs, [.errorMsg indexingFailMsg])
      | .ok r2 =>
        match saveRetrieverToDisk attrs fs { retriever := some r2 } with
        | .error _ => ({ retriever := some r2 }, fs, [.errorMsg indexingFailMsg])
        | .ok (fs2, ev) =>
          ({ retriever := some r2 }, fs2, ev ++ [.successMsg indexedMsg])

/-- The fragment-index entries held by a handler (none when uninitialized). -/
def fragsOfHandler (h : Handler) : List EmbFragment :=
  match h.retriever with
  | none => []
  | some r => r.vectorstore

/-- The document-store entries held by a handler (none when uninitialized). -/
def docsOfHandler (h : Handler) : List (String × Document) :=
  match h.retriever with
  | none => []
  | some r => r.docstore

/-- The fragments an ingest call would stage: those of the existing
retriever's splitter parameters, or of the parameters a fresh retriever
would read from the settings (empty when that read itself fails, since the
call then stops before staging anything). -/
def stagedForCall (attrs : List (String × SettingsVal)) (h : Handler)
    (docs : List Document) : List Fragment :=
  match currentOrNewRetriever attrs h with
  | .ok r => stageAll r.size r.overlap docs
  | .error _ => []

/-! ### The summarization strategy engine (src/agents/summarizer_agent.py) -/

/-- A LangChain document as the summarizer consumes it. -/
structure LCDoc where
  pageContent : String
  deriving Repr, DecidableEq

/-- The three summarization chain variants. -/
inductive ChainType where
  | stuff
  | mapReduce
  | refine
  deriving Repr, DecidableEq

/-- Which prompt templates the chosen chain is configured with; each carries
the requested summary length it was built for (src/agents/summarizer_agent.py
lines 92-137; the prompt bodies do not influence strategy selection). -/
inductive PromptTmpl where
  | stuffTmpl (summaryLength : String)
  | mapTmpl
  | combineTmpl (summaryLength : String)
  deriving Repr, DecidableEq

/-- A selected strategy: the chain type plus its prompt configuration. -/
structure StrategyCfg where
  chainType : ChainType
  prompts : List PromptTmpl
  deriving Repr, DecidableEq

/-- `MODEL_CONTEXT_LIMITS` (src/agents/summarizer_agent.py lines 66-69). -/
def modelContextLimits : List (String × Nat) :=
  [("gemini-1.5-flash-latest", 128000), ("default", 8000)]

/-- Python `dict.get` with a default. -/
def dictGetD (d : List (String × Nat)) (key : String) (dflt : Nat) : Nat :=
  match d with
  | [] => dflt
  | (k, v) :: rest => if key = k then v else dictGetD rest key dflt

/-- The context limit looked up for `settings.QNA_MODEL`
("gemini-1.5-flash"), falling back to the "default" entry since that exact
name is not a key of the limits table (line 159). -/
def modelLimit : Nat :=
  dictGetD modelContextLimits "gemini-1.5-flash"
    (dictGetD modelContextLimits "default" 0)

/-- `int(model_limit * 0.8)` (line 161); exact for both table values, so
integer arithmetic loses nothing. -/
def safeLimit : Nat := modelLimit * 8 / 10

/-- The text whose token count drives the decision: the page contents joined
with single spaces (line 155). -/
def fullText (docs : List LCDoc) : String :=
  String.intercalate " " (docs.map LCDoc.pageContent)

/-- `select_summarization_strategy` (src/agents/summarizer_agent.py lines
140-189), parameterized by the external token counter `tc`
(`get_token_count`): below the safe limit the stuff chain with the
length-specific stuff prompt; otherwise the map-reduce chain with the map
and combine prompts. -/
def selectSummarizationStrategy (tc : String → Nat) (docs : List LCDoc)
    (summaryLength : String) : StrategyCfg :=
  let totalTokens := tc (fullText docs)
  if totalTokens < safeLimit then
    { chainType := .stuff, prompts := [.stuffTmpl summaryLength] }
  else
    { chainType := .mapReduce,
      prompts := [.mapTmpl, .combineTmpl summaryLength] }

/-! ### Helper lemmas -/

theorem pathExists_writeFS_self (fs : FS) (p : String) (b : ArtifactBytes) :
    pathExists (writeFS fs p b) p = true := by
  induction fs with
  | nil => simp [writeFS, pathExists]
  | cons kv rest ih =>
    obtain ⟨k, v⟩ := kv
    by_cases h : p = k <;> simp [writeFS, pathExists, h, ih]

theorem readFS_writeFS_self (fs : FS) (p : String) (b : ArtifactBytes) :
    readFS (writeFS fs p b) p = some b := by
  induction fs with
  | nil => simp [writeFS, readFS]
  | cons kv rest ih =>
    obtain ⟨k, v⟩ := kv
    by_cases h : p = k <;> simp [writeFS, readFS, h, ih]

theorem pathExists_writeFS_ne (fs : FS) (p q : String) (b : ArtifactBytes)
    (h : q ≠ p) : pathExists (writeFS fs p b) q = pathExists fs q := by
  induction fs with
  | nil => simp [writeFS, pathExists, h]
  | cons kv rest ih =>
    obtain ⟨k, v⟩ := kv
    by_cases hk : p = k
    · subst hk
      simp [writeFS, pathExists, h]
    · by_cases hq : q = k <;> simp [writeFS, pathExists, hk, hq, ih]

theorem readFS_writeFS_ne (fs : FS) (p q : String) (b : ArtifactBytes)
    (h : q ≠ p) : readFS (writeFS fs p b) q = readFS fs q := by
  induction fs with
  | nil => simp [writeFS, readFS, h]
  | cons kv rest ih =>
    obtain ⟨k, v⟩ := kv
    by_cases hk : p = k
    · subst hk
      simp [writeFS, readFS, h]
    · by_cases hq : q = k <;> simp [writeFS, readFS, hk, hq, ih]

theorem dsGet_dsPut_self (ds : DocStore) (k : String) (d : Document) :
    dsGet (dsPut ds k d) k = some d := by
  induction ds with
  | nil => simp [dsPut, dsGet]
  | cons kv rest ih =>
    obtain ⟨k0, v0⟩ := kv
    by_cases h : k = k0 <;> simp [dsPut, dsGet, h, ih]

/-- Document-store well-formedness: every entry's stored document carries the
key it is filed under (ingest files each document under its own id). -/
def WellKeyed (ds : DocStore) : Prop := ∀ p ∈ ds, p.2.id = p.1

instance (ds : DocStore) : Decidable (WellKeyed ds) := by
  unfold WellKeyed
  infer_instance

theorem dsGet_wellKeyed {ds : DocStore} (hk : WellKeyed ds) {k : String}
    {d : Document} (h : dsGet ds k = some d) : d.id = k := by
  induction ds with
  | nil => simp [dsGet] at h
  | cons kv rest ih =>
    obtain ⟨k0, v0⟩ := kv
    by_cases hkk : k = k0
    · subst hkk
      simp [dsGet] at h
      subst h
      exact hk (k, v0) (List.mem_cons_self _ _)
    · simp [dsGet, hkk] at h
      exact ih (fun p hp => hk p (List.mem_cons_of_mem _ hp)) h

theorem mem_firstOccDedup (a : String) (l : List String) :
    a ∈ firstOccDedup l ↔ a ∈ l := by
  induction l using firstOccDedup.induct with
  | case1 => simp [firstOccDedup]
  | case2 x xs ih =>
    rw [firstOccDedup]
    constructor
    · intro h
      rcases List.mem_cons.mp h with h | h
      · simp [h]
      · have := List.mem_filter.mp (ih.mp h)
        exact List.mem_cons_of_mem _ this.1
    · intro h
      rcases List.mem_cons.mp h with h | h
      · simp [h]
      · by_cases hax : a = x
        · simp [hax]
        · refine List.mem_cons_of_mem _ (ih.mpr ?_)
          exact List.mem_filter.mpr ⟨h, by simp [hax]⟩

theorem nodup_firstOccDedup (l : List String) : (firstOccDedup l).Nodup := by
  induction l using firstOccDedup.induct with
  | case1 => simp [firstOccDedup]
  | case2 x xs ih =>
    rw [firstOccDedup]
    refine List.nodup_cons.mpr ⟨?_, ih⟩
    intro hmem
    have := List.mem_filter.mp ((mem_firstOccDedup _ _).mp hmem)
    simp at this

theorem toFinset_firstOccDedup (l : List String) :
    (firstOccDedup l).toFinset = l.toFinset := by
  ext a
  simp [List.mem_toFinset, mem_firstOccDedup]

theorem length_firstOccDedup_eq_dedup (l : List String) :
    (firstOccDedup l).length = l.dedup.length := by
  have h1 : (firstOccDedup l).dedup = firstOccDedup l :=
    (nodup_firstOccDedup l).dedup
  calc (firstOccDedup l).length
      = (firstOccDedup l).dedup.length := by rw [h1]
    _ = (firstOccDedup l).toFinset.card := (List.card_toFinset _).symm
    _ = l.toFinset.card := by rw [toFinset_firstOccDedup]
    _ = l.dedup.length := List.card_toFinset _

theorem map_id_filterMap_dsGet (ds : DocStore) (hk : WellKeyed ds)
    (pids : List String) :
    (pids.filterMap (dsGet ds)).map Document.id =
      pids.filter (fun pid => (dsGet ds pid).isSome) := by
  induction pids with
  | nil => simp
  | cons p t ih =>
    cases hg : dsGet ds p with
    | none => simp [List.filterMap_cons, List.filter_cons, hg, ih]
    | some d =>
      have : d.id = p := dsGet_wellKeyed hk hg
      simp [List.filterMap_cons, List.filter_cons, hg, ih, this]

theorem embedBatch_error_of_mem (embed : String → Except PyErr (List Int))
    {l : List Fragment} {f : Fragment} (hf : f ∈ l) {e : PyErr}
    (he : embed f.text = .error e) :
    ∃ e2, embedBatch embed l = .error e2 := by
  induction l with
  | nil => simp at hf
  | cons a t ih =>
    rcases List.mem_cons.mp hf with h | h
    · subst h
      exact ⟨e, by simp [embedBatch, he, Bind.bind, Except.bind]⟩
    · cases ha : embed a.text with
      | error e1 => exact ⟨e1, by simp [embedBatch, ha, Bind.bind, Except.bind]⟩
      | ok v =>
        obtain ⟨e2, h2⟩ := ih h
        exact ⟨e2, by simp [embedBatch, ha, h2, Bind.bind, Except.bind]⟩

theorem embedBatch_ok_of_total (embed : String → Except PyErr (List Int))
    (hemb : ∀ s, ∃ v, embed s = .ok v) (l : List Fragment) :
    ∃ out, embedBatch embed l = .ok out ∧ out.map EmbFragment.frag = l := by
  induction l with
  | nil => exact ⟨[], rfl, rfl⟩
  | cons a t ih =>
    obtain ⟨v, hv⟩ := hemb a.text
    obtain ⟨out, hout, hmap⟩ := ih
    exact ⟨{ frag := a, vec := v } :: out,
      by simp [embedBatch, hv, hout, Bind.bind, Except.bind], by simp [hmap]⟩

theorem slideChunks_base {size s1 : Nat} {l : List Char} (h : l.length ≤ size) :
    slideChunks size s1 l = [l] := by
  rw [slideChunks]
  simp [h]

theorem slideChunks_cons {size s1 : Nat} {l : List Char}
    (h : ¬ l.length ≤ size) :
    slideChunks size s1 l =
      l.take size :: slideChunks size s1 (l.drop (s1 + 1)) := by
  rw [slideChunks]
  simp [h]

theorem slideChunks_ne_nil (size s1 : Nat) (l : List Char) :
    slideChunks size s1 l ≠ [] := by
  by_cases h : l.length ≤ size
  · simp [slideChunks_base h]
  · simp [slideChunks_cons h]

/-- Every produced window is the `size`-character slice of the content at
offset `k` times the step. -/
theorem slideChunks_getElem? (size s1 : Nat) (l : List Char) :
    ∀ k, (slideChunks size s1 l)[k]? =
      if k < (slideChunks size s1 l).length
      then some ((l.drop (k * (s1 + 1))).take size) else none := by
  induction l using slideChunks.induct size s1 with
  | case1 l h =>
    intro k
    rw [slideChunks_base h]
    match k with
    | 0 => simp [List.take_of_length_le h]
    | k + 1 => simp
  | case2 l h ih =>
    intro k
    rw [slideChunks_cons h]
    match k with
    | 0 => simp
    | k + 1 =>
      have harith : s1 + 1 + k * (s1 + 1) = (k + 1) * (s1 + 1) := by ring
      simp only [List.getElem?_cons_succ, List.length_cons, ih k,
        List.drop_drop, harith, Nat.add_lt_add_iff_right]

/-- The final window is the whole remaining content (truncation). -/
theorem slideChunks_getLast? (size s1 : Nat) (l : List Char) :
    (slideChunks size s1 l).getLast? =
      some (l.drop (((slideChunks size s1 l).length - 1) * (s1 + 1))) := by
  induction l using slideChunks.induct size s1 with
  | case1 l h =>
    rw [slideChunks_base h]
    simp
  | case2 l h ih =>
    rw [slideChunks_cons h]
    obtain ⟨b, t, hbt⟩ :=
      List.exists_cons_of_ne_nil (slideChunks_ne_nil size s1 (l.drop (s1 + 1)))
    rw [hbt] at ih ⊢
    rw [List.getLast?_cons_cons, ih]
    simp only [List.drop_drop, List.length_cons, Nat.add_sub_cancel]
    have harith : s1 + 1 + t.length * (s1 + 1) = (t.length + 1) * (s1 + 1) := by
      ring
    rw [harith]

/-- Every window except the last starts at an offset with at least `size`
characters remaining, hence is a full `size`-character window. -/
theorem slideChunks_full_window (size s1 : Nat) (l : List Char) :
    ∀ k, k + 1 < (slideChunks size s1 l).length →
      size ≤ (l.drop (k * (s1 + 1))).length := by
  induction l using slideChunks.induct size s1 with
  | case1 l h =>
    intro k hk
    rw [slideChunks_base h] at hk
    simp at hk
  | case2 l h ih =>
    intro k hk
    rw [slideChunks_cons h] at hk
    simp only [List.length_cons] at hk
    match k with
    | 0 =>
      simp only [Nat.zero_mul, List.drop_zero]
      omega
    | k + 1 =>
      have := ih k (by omega)
      simp only [List.drop_drop] at this
      have harith : k * (s1 + 1) + (s1 + 1) = (k + 1) * (s1 + 1) := by ring
      rw [Nat.add_comm, harith] at this
      exact this

theorem currentOrNew_none_stores (attrs : List (String × SettingsVal))
    {r : Retriever} (h : currentOrNewRetriever attrs { retriever := none } = .ok r) :
    r.vectorstore = [] ∧ r.docstore = [] := by
  unfold currentOrNewRetriever at h
  cases h1 : getattrNat attrs "CHILD_CHUNK_SIZE" with
  | error e => simp [h1, Bind.bind, Except.bind] at h
  | ok sz =>
    cases h2 : getattrNat attrs "CHILD_CHUNK_OVERLAP" with
    | error e => simp [h1, h2, Bind.bind, Except.bind] at h
    | ok ov =>
      simp [h1, h2, Bind.bind, Except.bind] at h
      subst h
      exact ⟨rfl, rfl⟩

/-! ### Concrete fixtures used by witnesses and counterexamples -/

/-- A plausible vector-store path, used to probe the load/save logic with the
path attributes present. -/
def vsPath : String := "faiss_index_store/index"

/-- A plausible document-store path. -/
def dsPath : String := "faiss_index_store/docstore.pkl"

/-- The settings module as the handler expects it: the actual
`settingsAttrs` extended with the two path attributes the handler reads but
`config/settings.py` does not define. -/
def settingsWithPaths : List (String × SettingsVal) :=
  ("VECTOR_STORE_PATH", .str vsPath) ::
  ("DOC_STORE_PATH", .str dsPath) :: settingsAttrs

/-- A persisted state in which both artifacts exist and the document-store
artifact holds garbage bytes. -/
def corruptFS : FS := [(vsPath, .faissDump []), (dsPath, .garbage 0)]

/-! ### Claim theorems -/

/-- Claim C1: the round-trip persistence invariant fails on this code. Left
conjunct: with the actual settings module, every `load` call raises an
uncaught `AttributeError` at the `settings.VECTOR_STORE_PATH` read (line
101), before touching any artifact, so no query-equivalent state is ever
reconstructed after a save. Right conjunct: even with the two path
attributes supplied, a `load` immediately after a successful `save` still
reads `settings.CHILD_CHUNK_SIZE` inside the `try` block (line 118), which
fails, is caught, and leaves the handler with no retriever and a corruption
error — again not query-equivalent to the saved state. -/
theorem C1_round_trip_broken :
    (∀ fs, loadRetrieverFromDisk settingsAttrs fs =
      .error (.attributeError "VECTOR_STORE_PATH")) ∧
    (∀ (r : Retriever) (fs : FS), ∃ fs2,
      saveRetrieverToDisk settingsWithPaths fs { retriever := some r } =
        .ok (fs2, []) ∧
      loadRetrieverFromDisk settingsWithPaths fs2 =
        .ok ({ retriever := none }, [.errorMsg corruptLoadMsg])) := by
  constructor
  · intro fs
    rfl
  · intro r fs
    refine ⟨writeFS (writeFS fs vsPath (.faissDump r.vectorstore)) dsPath
      (.pickleDump r.docstore), rfl, ?_⟩
    have hne : vsPath ≠ dsPath := by decide
    have h1 : getattrStr settingsWithPaths "VECTOR_STORE_PATH" = .ok vsPath := rfl
    have h2 : getattrStr settingsWithPaths "DOC_STORE_PATH" = .ok dsPath := rfl
    have hex1 : pathExists (writeFS (writeFS fs vsPath
        (.faissDump r.vectorstore)) dsPath (.pickleDump r.docstore)) vsPath
        = true := by
      rw [pathExists_writeFS_ne _ _ _ _ hne]
      exact pathExists_writeFS_self _ _ _
    have hex2 : pathExists (writeFS (writeFS fs vsPath
        (.faissDump r.vectorstore)) dsPath (.pickleDump r.docstore)) dsPath
        = true := pathExists_writeFS_self _ _ _
    have hla : loadArtifacts settingsWithPaths
        (writeFS (writeFS fs vsPath (.faissDump r.vectorstore)) dsPath
          (.pickleDump r.docstore)) vsPath dsPath =
        .error (.attributeError "CHILD_CHUNK_SIZE") := by
      have hr1 : faissLoadLocal (writeFS (writeFS fs vsPath
          (.faissDump r.vectorstore)) dsPath (.pickleDump r.docstore)) vsPath
          = .ok r.vectorstore := by
        unfold faissLoadLocal
        rw [readFS_writeFS_ne _ _ _ _ hne, readFS_writeFS_self]
      have hr2 : pickleLoadDS (writeFS (writeFS fs vsPath
          (.faissDump r.vectorstore)) dsPath (.pickleDump r.docstore)) dsPath
          = .ok r.docstore := by
        unfold pickleLoadDS
        rw [readFS_writeFS_self]
      have hr3 : getattrNat settingsWithPaths "CHILD_CHUNK_SIZE" =
          .error (.attributeError "CHILD_CHUNK_SIZE") := rfl
      unfold loadArtifacts
      simp only [hr1, hr2, hr3, Bind.bind, Except.bind]
    unfold loadRetrieverFromDisk
    simp only [h1, h2, Bind.bind, Except.bind, hex1, hex2, Bool.and_self,
      if_true, hla]

/-- Claim C3: the persisted-artifact paths are indeed read from the central
settings module, but the reads do not succeed: `config/settings.py` defines
`FAISS_PERSIST_DIRECTORY`, not the `VECTOR_STORE_PATH` / `DOC_STORE_PATH`
attributes the handler reads, so every such access during load and save
raises `AttributeError`. -/
theorem C3_path_settings_missing :
    getattrV settingsAttrs "VECTOR_STORE_PATH" =
      .error (.attributeError "VECTOR_STORE_PATH") ∧
    getattrV settingsAttrs "DOC_STORE_PATH" =
      .error (.attributeError "DOC_STORE_PATH") ∧
    getattrV settingsAttrs "FAISS_PERSIST_DIRECTORY" =
      .ok (.str "faiss_index_store") ∧
    (∀ (fs : FS) (r : Retriever),
      saveRetrieverToDisk settingsAttrs fs { retriever := some r } =
        .error (.attributeError "VECTOR_STORE_PATH")) := by
  refine ⟨rfl, rfl, rfl, ?_⟩
  intro fs r
  rfl

/-- Claim C4: with both artifacts present and the document-store artifact
corrupt, `load` does not report a corruption error distinct from the absent
case — it crashes with the uncaught `AttributeError` of the path read at
line 101, before even checking that the artifacts exist. -/
theorem C4_corrupt_load_crashes :
    readFS corruptFS vsPath = some (.faissDump []) ∧
    readFS corruptFS dsPath = some (.garbage 0) ∧
    loadRetrieverFromDisk settingsAttrs corruptFS =
      .error (.attributeError "VECTOR_STORE_PATH") := by
  refine ⟨by decide, by decide, rfl⟩

/-- Claim C8: `get_retriever` on a handler in the UNINITIALIZED state
(no retriever from any successful ingest or load) returns no retriever
together with a reported error event — not a crash and not an empty success
— and on any handler holding a retriever (the state after a successful
ingest) it returns that retriever with no error, so the caller can proceed
once ingestion has happened. -/
theorem C8_not_ready_reported :
    getRetriever { retriever := none } = (none, [.errorMsg emptyKBMsg]) ∧
    (∀ r : Retriever, getRetriever { retriever := some r } = (some r, [])) :=
  ⟨rfl, fun _ => rfl⟩

/-- Claim C9: summarization strategy selection is a threshold decision on
the estimated token count of the joined document text: below the safe limit
(6400 tokens, from the default 8000-token entry scaled by 0.8, since
`settings.QNA_MODEL` is not a key of the limits table) the stuff chain is
selected, otherwise map-reduce; two inputs with equal estimated token counts
select the same variant whatever the requested lengths; and the selection
always lies in the tagged set stuff / map-reduce / refine. -/
theorem C9_strategy_threshold (tc : String → Nat) (docs docs2 : List LCDoc)
    (len len2 : String)
    (h : tc (fullText docs) = tc (fullText docs2)) :
    (selectSummarizationStrategy tc docs len).chainType =
      (if tc (fullText docs) < safeLimit then ChainType.stuff
       else ChainType.mapReduce) ∧
    (selectSummarizationStrategy tc docs len).chainType =
      (selectSummarizationStrategy tc docs2 len2).chainType ∧
    safeLimit = 6400 ∧
    (selectSummarizationStrategy tc docs len).chainType ∈
      [ChainType.stuff, ChainType.mapReduce, ChainType.refine] := by
  have key : ∀ (ds : List LCDoc) (l : String),
      (selectSummarizationStrategy tc ds l).chainType =
        (if tc (fullText ds) < safeLimit then ChainType.stuff
         else ChainType.mapReduce) := by
    intro ds l
    by_cases hc : tc (fullText ds) < safeLimit <;>
      simp [selectSummarizationStrategy, hc]
  refine ⟨key docs len, ?_, by decide, ?_⟩
  · rw [key docs len, key docs2 len2, h]
  · rw [key docs len]
    split <;> simp

/-- Witness for C9 at a concrete input: the token counter is the string
length, the two document lists coincide, the requested lengths differ. -/
theorem C9_strategy_threshold_witness :
    String.length (fullText [LCDoc.mk "abc"]) =
      String.length (fullText [LCDoc.mk "abc"]) ∧
    (selectSummarizationStrategy String.length [LCDoc.mk "abc"]
        "brief").chainType =
      (if String.length (fullText [LCDoc.mk "abc"]) < safeLimit
       then ChainType.stuff else ChainType.mapReduce) :=
  ⟨rfl, (C9_strategy_threshold String.length [LCDoc.mk "abc"]
    [LCDoc.mk "abc"] "brief" "detailed" rfl).1⟩

/-- Claim C10: saving while UNINITIALIZED is a no-op — with no retriever,
`_save_retriever_to_disk` returns before any settings access or disk write,
for any settings module and any prior on-disk state, which is therefore
returned byte-for-byte unchanged with no reported event. -/
theorem C10_save_uninitialized_noop (attrs : List (String × SettingsVal))
    (fs : FS) (h : Handler) (hret : h.retriever = none) :
    saveRetrieverToDisk attrs fs h = .ok (fs, []) := by
  unfold saveRetrieverToDisk
  rw [hret]

/-- Witness for C10 on a concrete nonempty on-disk state and the actual
settings module. -/
theorem C10_save_uninitialized_noop_witness :
    (({ retriever := none } : Handler).retriever = none) ∧
    saveRetrieverToDisk settingsAttrs [(vsPath, .garbage 3)]
      { retriever := none } = .ok ([(vsPath, .garbage 3)], []) :=
  ⟨rfl, C10_save_uninitialized_noop settingsAttrs [(vsPath, .garbage 3)]
    { retriever := none } rfl⟩

/-- Claim C2: ingest atomicity. If embedding fails for some fragment staged
by a `build_index` call, the whole call fails — an error is reported and no
success is reported — and no partial state change is retained: the fragment
index entries, the document store entries and the on-disk state are exactly
what they were before the call. -/
theorem C2_ingest_atomic (attrs : List (String × SettingsVal))
    (embed : String → Except PyErr (List Int)) (h : Handler)
    (docs : List Document) (fs : FS)
    (hfail : ∃ f ∈ stagedForCall attrs h docs, ∃ e, embed f.text = .error e) :
    fragsOfHandler (buildIndex attrs embed h docs fs).1 = fragsOfHandler h ∧
    docsOfHandler (buildIndex attrs embed h docs fs).1 = docsOfHandler h ∧
    (buildIndex attrs embed h docs fs).2.1 = fs ∧
    (∃ m, UIEvent.errorMsg m ∈ (buildIndex attrs embed h docs fs).2.2) ∧
    (∀ m, UIEvent.successMsg m ∉ (buildIndex attrs embed h docs fs).2.2) := by
  obtain ⟨f, hfmem, e, hfe⟩ := hfail
  have hdocs : docs.isEmpty = false := by
    cases docs with
    | nil =>
      exfalso
      unfold stagedForCall at hfmem
      cases hcr : currentOrNewRetriever attrs h with
      | ok r =>
        rw [hcr] at hfmem
        simp [stageAll] at hfmem
      | error e2 =>
        rw [hcr] at hfmem
        simp at hfmem
    | cons a t => rfl
  obtain ⟨ret⟩ := h
  cases ret with
  | some r0 =>
    have hcr : currentOrNewRetriever attrs ⟨some r0⟩ = .ok r0 := rfl
    have hst : stagedForCall attrs ⟨some r0⟩ docs =
        stageAll r0.size r0.overlap docs := by
      unfold stagedForCall
      rw [hcr]
    rw [hst] at hfmem
    obtain ⟨e2, hbatch⟩ := embedBatch_error_of_mem embed hfmem hfe
    have hadd : addDocuments embed r0 docs = .error e2 := by
      unfold addDocuments
      rw [hbatch]
    have hb : buildIndex attrs embed ⟨some r0⟩ docs fs =
        ({ retriever := some r0 }, fs, [.errorMsg indexingFailMsg]) := by
      unfold buildIndex
      simp only [hdocs, Bool.false_eq_true, if_false, hcr, hadd]
    rw [hb]
    exact ⟨rfl, rfl, rfl, ⟨indexingFailMsg, by simp⟩, by simp⟩
  | none =>
    cases hcr : currentOrNewRetriever attrs ⟨none⟩ with
    | error e2 =>
      have hb : buildIndex attrs embed ⟨none⟩ docs fs =
          (⟨none⟩, fs, [.errorMsg createFailMsg]) := by
        unfold buildIndex
        simp only [hdocs, Bool.false_eq_true, if_false, hcr]
      rw [hb]
      exact ⟨rfl, rfl, rfl, ⟨createFailMsg, by simp⟩, by simp⟩
    | ok r =>
      have hst : stagedForCall attrs ⟨none⟩ docs =
          stageAll r.size r.overlap docs := by
        unfold stagedForCall
        rw [hcr]
      rw [hst] at hfmem
      obtain ⟨e2, hbatch⟩ := embedBatch_error_of_mem embed hfmem hfe
      have hadd : addDocuments embed r docs = .error e2 := by
        unfold addDocuments
        rw [hbatch]
      obtain ⟨hvs, hds⟩ := currentOrNew_none_stores attrs hcr
      have hb : buildIndex attrs embed ⟨none⟩ docs fs =
          ({ retriever := some r }, fs, [.errorMsg indexingFailMsg]) := by
        unfold buildIndex
        simp only [hdocs, Bool.false_eq_true, if_false, hcr, hadd]
      rw [hb]
      refine ⟨?_, ?_, rfl, ⟨indexingFailMsg, by simp⟩, by simp⟩
      · simp [fragsOfHandler, hvs]
      · simp [docsOfHandler, hds]

/-- The settings module extended with the child-splitter attributes, used to
drive the ingest path past retriever creation in witness instances. -/
def settingsWithChunks : List (String × SettingsVal) :=
  ("CHILD_CHUNK_SIZE", .nat 4) ::
  ("CHILD_CHUNK_OVERLAP", .nat 1) :: settingsAttrs

/-- A concrete document for witness instances. -/
def docAX : Document := { id := "a.txt", content := "abcdefgh", source := "a.txt" }

/-- An embedding provider that always fails. -/
def embedFailing : String → Except PyErr (List Int) :=
  fun _ => .error .embeddingError

/-- Witness for C2: a failing embedding provider on a fresh handler with the
chunk settings present; the on-disk state and the fragment entries are
unchanged by the failed call. -/
theorem C2_ingest_atomic_witness :
    (∃ f ∈ stagedForCall settingsWithChunks { retriever := none } [docAX],
      ∃ e, embedFailing f.text = .error e) ∧
    (buildIndex settingsWithChunks embedFailing { retriever := none }
      [docAX] [(vsPath, .garbage 3)]).2.1 = [(vsPath, .garbage 3)] := by
  have hst : stagedForCall settingsWithChunks { retriever := none } [docAX] =
      (slideChunks 4 2 docAX.content.data).map
        (fun w => { text := String.mk w, parentId := docAX.id }) := by
    have hcr : currentOrNewRetriever settingsWithChunks { retriever := none }
        = .ok { size := 4, overlap := 1, vectorstore := [], docstore := [] } :=
      rfl
    unfold stagedForCall
    rw [hcr]
    simp [stageAll, stagedOfDoc]
  obtain ⟨w, rest, hw⟩ :=
    List.exists_cons_of_ne_nil (slideChunks_ne_nil 4 2 docAX.content.data)
  have hf : (∃ f ∈ stagedForCall settingsWithChunks { retriever := none }
      [docAX], ∃ e, embedFailing f.text = .error e) := by
    refine ⟨{ text := String.mk w, parentId := docAX.id }, ?_,
      .embeddingError, rfl⟩
    rw [hst, hw]
    exact List.mem_map_of_mem _ (List.mem_cons_self _ _)
  exact ⟨hf, (C2_ingest_atomic settingsWithChunks embedFailing
    { retriever := none } [docAX] [(vsPath, .garbage 3)] hf).2.2.1⟩

/-- Claim C6: overwrite on re-ingest. Ingesting a document and then
re-ingesting a document with the same id (different content) succeeds, the
document store afterwards maps that id to the second document, every
fragment indexed by the first ingest is still in the fragment index, and the
first ingest had indexed one fragment per staged window of the first
content. -/
theorem C6_overwrite_on_reingest (embed : String → Except PyErr (List Int))
    (r : Retriever) (d1 d2 : Document)
    (hemb : ∀ s, ∃ v, embed s = Except.ok v) (hid : d1.id = d2.id) :
    ∃ r1 r2,
      addDocuments embed r [d1] = .ok r1 ∧
      addDocuments embed r1 [d2] = .ok r2 ∧
      dsGet r2.docstore d1.id = some d2 ∧
      (∀ ef ∈ r1.vectorstore, ef ∈ r2.vectorstore) ∧
      (∀ f ∈ stagedOfDoc r.size r.overlap d1, ∃ v,
        ({ frag := f, vec := v } : EmbFragment) ∈ r1.vectorstore) := by
  obtain ⟨out1, hout1, hmap1⟩ :=
    embedBatch_ok_of_total embed hemb (stageAll r.size r.overlap [d1])
  refine ⟨Retriever.mk r.size r.overlap (r.vectorstore ++ out1)
    (dsPut r.docstore d1.id d1), ?_⟩
  have h1 : addDocuments embed r [d1] = .ok (Retriever.mk r.size r.overlap
      (r.vectorstore ++ out1) (dsPut r.docstore d1.id d1)) := by
    unfold addDocuments
    rw [hout1]
    rfl
  obtain ⟨out2, hout2, hmap2⟩ :=
    embedBatch_ok_of_total embed hemb (stageAll r.size r.overlap [d2])
  refine ⟨Retriever.mk r.size r.overlap ((r.vectorstore ++ out1) ++ out2)
    (dsPut (dsPut r.docstore d1.id d1) d2.id d2), h1, ?_, ?_, ?_, ?_⟩
  · unfold addDocuments
    dsimp only
    rw [hout2]
    rfl
  · rw [hid]
    exact dsGet_dsPut_self _ _ _
  · intro ef hef
    exact List.mem_append_left _ hef
  · intro f hf
    have hsa : stageAll r.size r.overlap [d1] =
        stagedOfDoc r.size r.overlap d1 := by
      simp [stageAll]
    have hmem : f ∈ out1.map EmbFragment.frag := by
      rw [hmap1, hsa]
      exact hf
    obtain ⟨ef, hef, hfrag⟩ := List.mem_map.mp hmem
    refine ⟨ef.vec, ?_⟩
    have hefeq : ({ frag := f, vec := ef.vec } : EmbFragment) = ef := by
      cases ef
      simp_all
    rw [hefeq]
    exact List.mem_append_right _ hef

/-- An embedding provider that always succeeds (the text length as a
one-dimensional vector). -/
def embedByLen : String → Except PyErr (List Int) :=
  fun s => .ok [(s.length : Int)]

/-- The second version of the witness document: same id, different content. -/
def docAY : Document := { id := "a.txt", content := "YYYYYY", source := "a.txt" }

/-- An empty retriever with a 4-character window and 1-character overlap. -/
def rEmpty : Retriever :=
  { size := 4, overlap := 1, vectorstore := [], docstore := [] }

/-- Witness for C6 at concrete inputs: same id "a.txt", contents X then Y,
a total embedding provider, an initially empty retriever. -/
theorem C6_overwrite_on_reingest_witness :
    (∀ s, ∃ v, embedByLen s = Except.ok v) ∧ docAX.id = docAY.id ∧
    (∃ r1 r2,
      addDocuments embedByLen rEmpty [docAX] = .ok r1 ∧
      addDocuments embedByLen r1 [docAY] = .ok r2 ∧
      dsGet r2.docstore docAX.id = some docAY ∧
      (∀ ef ∈ r1.vectorstore, ef ∈ r2.vectorstore) ∧
      (∀ f ∈ stagedOfDoc rEmpty.size rEmpty.overlap docAX, ∃ v,
        ({ frag := f, vec := v } : EmbFragment) ∈ r1.vectorstore)) := by
  refine ⟨fun s => ⟨[(s.length : Int)], rfl⟩, rfl, ?_⟩
  exact C6_overwrite_on_reingest embedByLen rEmpty docAX docAY
    (fun s => ⟨[(s.length : Int)], rfl⟩) rfl

/-- Claim C7: no duplicate parents in results. For a well-keyed document
store, the ids of the documents `retrieve` returns for any list of matched
fragments contain no duplicate; and when every matched fragment's parent id
resolves, the number of returned documents equals the number of distinct
parent ids among the matched fragments. -/
theorem C7_no_duplicate_parents (ds : DocStore) (matched : List Fragment)
    (hkeys : WellKeyed ds) :
    ((retrieveDocs ds matched).map Document.id).Nodup ∧
    ((∀ f ∈ matched, (dsGet ds f.parentId).isSome = true) →
      (retrieveDocs ds matched).length =
        ((matched.map Fragment.parentId).dedup).length) := by
  constructor
  · unfold retrieveDocs
    rw [map_id_filterMap_dsGet ds hkeys]
    exact (nodup_firstOccDedup _).filter _
  · intro hres
    unfold retrieveDocs
    have hall : ∀ pid ∈ firstOccDedup (matched.map Fragment.parentId),
        (dsGet ds pid).isSome = true := by
      intro pid hpid
      have hpl : pid ∈ matched.map Fragment.parentId :=
        (mem_firstOccDedup _ _).mp hpid
      obtain ⟨f, hf, hfp⟩ := List.mem_map.mp hpl
      exact hfp ▸ hres f hf
    have hid : ((firstOccDedup (matched.map Fragment.parentId)).filterMap
        (dsGet ds)).map Document.id =
        firstOccDedup (matched.map Fragment.parentId) := by
      rw [map_id_filterMap_dsGet ds hkeys]
      exact List.filter_eq_self.mpr hall
    calc ((firstOccDedup (matched.map Fragment.parentId)).filterMap
          (dsGet ds)).length
        = (((firstOccDedup (matched.map Fragment.parentId)).filterMap
            (dsGet ds)).map Document.id).length := (List.length_map _ _).symm
      _ = (firstOccDedup (matched.map Fragment.parentId)).length := by
          rw [hid]
      _ = ((matched.map Fragment.parentId).dedup).length :=
          length_firstOccDedup_eq_dedup _

/-- A concrete well-keyed two-document store. -/
def c7Store : DocStore :=
  [("a.txt", docAX), ("b.txt", { id := "b.txt", content := "grass", source := "b.txt" })]

/-- A concrete matched-fragment list with a repeated parent. -/
def c7Matched : List Fragment :=
  [{ text := "t", parentId := "a.txt" }, { text := "u", parentId := "b.txt" },
   { text := "v", parentId := "a.txt" }]

/-- Witness for C7 on concrete inputs with a duplicate parent among the
matched fragments. -/
theorem C7_no_duplicate_parents_witness :
    WellKeyed c7Store ∧
    ((retrieveDocs c7Store c7Matched).map Document.id).Nodup := by
  have hk : WellKeyed c7Store := by decide
  exact ⟨hk, (C7_no_duplicate_parents c7Store c7Matched hk).1⟩

/-- Claim C5: fragment generation. For `overlap < size`, the staged fragment
sequence of a document is deterministic and is exactly the sliding-window
decomposition of its content: every fragment carries the document id as
parent id; the k-th fragment text is the `size`-character slice starting at
offset k times the step `size - overlap`; the final fragment is the whole
remaining content (truncated window); and every non-final window has a full
`size` characters available. -/
theorem C5_fragment_generation (size overlap : Nat) (d : Document)
    (hov : overlap < size) :
    (∀ f ∈ stagedOfDoc size overlap d, f.parentId = d.id) ∧
    (∀ k, ((stagedOfDoc size overlap d).map Fragment.text)[k]? =
      if k < (stagedOfDoc size overlap d).length
      then some (String.mk
        ((d.content.data.drop (k * (size - overlap))).take size))
      else none) ∧
    (((stagedOfDoc size overlap d).map Fragment.text).getLast? =
      some (String.mk (d.content.data.drop
        (((stagedOfDoc size overlap d).length - 1) * (size - overlap))))) ∧
    (∀ k, k + 1 < (stagedOfDoc size overlap d).length →
      size ≤ (d.content.data.drop (k * (size - overlap))).length) := by
  have hstep : size - overlap - 1 + 1 = size - overlap := by omega
  have hmm : (stagedOfDoc size overlap d).map Fragment.text =
      (slideChunks size (size - overlap - 1) d.content.data).map
        (fun w => String.mk w) := by
    unfold stagedOfDoc
    rw [List.map_map]
    rfl
  have hlen : (stagedOfDoc size overlap d).length =
      (slideChunks size (size - overlap - 1) d.content.data).length := by
    unfold stagedOfDoc
    rw [List.length_map]
  refine ⟨?_, ?_, ?_, ?_⟩
  · intro f hf
    obtain ⟨w, hw, hfw⟩ := List.mem_map.mp hf
    rw [← hfw]
  · intro k
    rw [hmm, List.getElem?_map, slideChunks_getElem? size (size - overlap - 1)
      d.content.data k, hlen, hstep]
    split <;> simp
  · rw [hmm, List.getLast?_map,
      slideChunks_getLast? size (size - overlap - 1) d.content.data,
      hlen, hstep]
    rfl
  · intro k hk
    rw [hlen] at hk
    have hfull := slideChunks_full_window size (size - overlap - 1)
      d.content.data k hk
    rw [hstep] at hfull
    exact hfull

/-- Witness for C5 at a concrete input: window 4, overlap 1, content
"abcdefgh". -/
theorem C5_fragment_generation_witness :
    1 < 4 ∧ (∀ f ∈ stagedOfDoc 4 1 docAX, f.parentId = docAX.id) :=
  ⟨by decide, (C5_fragment_generation 4 1 docAX (by decide)).1⟩

end CQP
